import Mathlib

/-!
Verification of the TemperatureTowerProcessor specification against the
program.  The repository ships the GUI front ends (TowerConfiguration.pyw
and its variants); the engine module `gcodefollower.py` (GCodeFollower:
settings store, line classification, height tracking, temperature
scheduling, tower rewriting) is not among the provided source files, so
the engine is modelled from the specification's own description and the
GUI-level code is embedded from the source files.

Machine reals (G-code Z coordinates, temperatures) are modelled as `Int`:
every property at issue (strict increase, band arithmetic) is about
ordering and exact arithmetic, never about decimal representation.
-/

/-! ## Definitions -/

/-- Kind of one classified input line: `Move`, `TemperatureSet`,
`ModeSwitch` or `Other`. -/
inductive LineKind where
  | move
  | temperatureSet
  | modeSwitch
  | other
deriving DecidableEq, Repr

/-- Modelled from the spec: `ParsedLine` of gcodefollower.py's line
classifier output — a kind, an optional `Z` value and an optional
temperature value. -/
structure ParsedLine where
  kind : LineKind
  zVal : Option Int := none
  tVal : Option Int := none
deriving DecidableEq, Repr

/-- Positioning mode of the printer: absolute (G90) or relative (G91). -/
inductive PositioningMode where
  | absolute
  | relative
deriving DecidableEq, Repr

/-- Toggle the positioning mode; the tracker flips it on a ModeSwitch. -/
def PositioningMode.flip : PositioningMode → PositioningMode
  | .absolute => .relative
  | .relative => .absolute

/-- Modelled from the spec: the height-tracking part of gcodefollower.py's
state — current positioning mode and current absolute Z. -/
structure TrackerState where
  mode : PositioningMode
  z : Int
deriving DecidableEq, Repr

/-- The Z value that a Move carrying parameter `dz` produces: set outright
in absolute mode, accumulated onto current Z in relative mode. -/
def newZOf (st : TrackerState) (dz : Int) : Int :=
  match st.mode with
  | .absolute => dz
  | .relative => st.z + dz

/-- Modelled from the spec: `HeightTracker.update` of gcodefollower.py.
Returns whether the line signalled a height increase, together with the
updated tracker state.  Mode flips on ModeSwitch; only Move lines carrying
a Z parameter affect tracked height; a height increase is signalled only
when the new Z is strictly greater than the previously tracked Z. -/
def HeightTracker.update (st : TrackerState) (l : ParsedLine) :
    Bool × TrackerState :=
  match l.kind with
  | .modeSwitch => (false, { st with mode := st.mode.flip })
  | .move =>
    match l.zVal with
    | none => (false, st)
    | some dz =>
      let nz := newZOf st dz
      (decide (st.z < nz), { st with z := nz })
  | _ => (false, st)

/-- A temperature band: 0-based index and temperature in Celsius. -/
structure TemperatureBand where
  index : Nat
  temperature : Int
deriving DecidableEq, Repr

/-- Modelled from the spec: gcodefollower.py's `computeBands`.
count = (max - min)/step + 1; band i has temperature min + i*step. -/
def computeBands (mn mx step cap : Int) : List TemperatureBand × Nat :=
  let count : Nat := ((mx - mn) / step + 1).toNat
  ((List.range count).map (fun i => ⟨i, mn + (i : Int) * step⟩), count)

/-- Number of bands of a configuration, as an integer. -/
def levelCount (mn mx step : Int) : Int := (mx - mn) / step + 1

/-- An output line of the rewrite pass: a verbatim copy of a source line,
a source TemperatureSet line with its temperature parameter rewritten, or
a synthetically inserted TemperatureSet line. -/
inductive OutLine where
  | copy (l : ParsedLine)
  | rewrittenTemp (l : ParsedLine) (t : Int)
  | syntheticTemp (t : Int)
deriving DecidableEq, Repr

/-- Whether an output line is a synthetically inserted TemperatureSet. -/
def OutLine.isSynthetic : OutLine → Bool
  | .syntheticTemp _ => true
  | _ => false

/-- Modelled from the spec: the per-pass `TowerState` of gcodefollower.py
— tracker state (current Z and positioning mode), current band index, and
the terminal truncation flag. -/
structure TowerState where
  tracker : TrackerState
  bandIndex : Nat
  truncated : Bool
deriving DecidableEq, Repr

/-- The temperature of band `b` of the schedule `bands` (default 0 out of
range; the rewriter never reads out of range). -/
def tempOf (bands : List Int) (b : Nat) : Int := bands.getD b 0

/-- Whether the next source line (one-line lookahead) is a TemperatureSet;
false at end of input. -/
def nextIsTempSet : List ParsedLine → Bool
  | [] => false
  | n :: _ => decide (n.kind = LineKind.temperatureSet)

/-- Modelled from the spec: the forward rewrite pass of gcodefollower.py's
tower rewriter over already-classified lines.  Each emitted line is tagged
with the band index it belongs to (the band boundary's own triggering move
is the last line emitted for the previous band).  On a height-increase
Move the band index is incremented; if it reaches the level count the pass
becomes `Truncated`: the triggering move is the last line emitted and the
remaining input is dropped.  While emitting, TemperatureSet lines are
rewritten to the current band's temperature, and if no TemperatureSet line
immediately follows a triggering move in the source, a synthetic one
carrying the new band's temperature is inserted right after that move. -/
def rewriteLines (bands : List Int) (count : Nat) (st : TowerState) :
    List ParsedLine → List (Nat × OutLine) × TowerState
  | [] => ([], st)
  | l :: rest =>
    if st.truncated then ([], st)
    else
      let u := HeightTracker.update st.tracker l
      if u.1 then
        if st.bandIndex + 1 = count then
          ([(st.bandIndex, OutLine.copy l)],
           { tracker := u.2, bandIndex := st.bandIndex + 1, truncated := true })
        else
          let st' : TowerState :=
            { tracker := u.2, bandIndex := st.bandIndex + 1, truncated := false }
          let r := rewriteLines bands count st' rest
          if nextIsTempSet rest then
            ((st.bandIndex, OutLine.copy l) :: r.1, r.2)
          else
            ((st.bandIndex, OutLine.copy l)
              :: (st.bandIndex + 1,
                  OutLine.syntheticTemp (tempOf bands (st.bandIndex + 1)))
              :: r.1, r.2)
      else
        let st' : TowerState :=
          { tracker := u.2, bandIndex := st.bandIndex, truncated := false }
        let r := rewriteLines bands count st' rest
        if l.kind = LineKind.temperatureSet then
          ((st.bandIndex,
            OutLine.rewrittenTemp l (tempOf bands st.bandIndex)) :: r.1, r.2)
        else
          ((st.bandIndex, OutLine.copy l) :: r.1, r.2)

/-- The number of height-increase events a stream of parsed lines contains
when tracked from `tr`. -/
def heightEvents (tr : TrackerState) : List ParsedLine → Nat
  | [] => 0
  | l :: rest =>
    (if (HeightTracker.update tr l).1 then 1 else 0)
      + heightEvents (HeightTracker.update tr l).2 rest

/-- The tracker state at the start of a pass: absolute mode, Z = 0. -/
def initialTracker : TrackerState := ⟨PositioningMode.absolute, 0⟩

/-- The `TowerState` at the start of a pass: `Emitting(0)`. -/
def initialTowerState : TowerState := ⟨initialTracker, 0, false⟩

/-- The number of distinct bands that received at least one emitted output
line. -/
def emittedBands (out : List (Nat × OutLine)) : Nat :=
  (out.map Prod.fst).toFinset.card

/-- The number of synthetically inserted lines in an output stream. -/
def synthCount (out : List (Nat × OutLine)) : Nat :=
  (out.filter (fun p => p.2.isSynthetic)).length

/-- Modelled from the spec: a raw temperature entry as typed by the user —
either text that parses as an integer, or text that does not. -/
inductive RawValue where
  | intVal (n : Int)
  | nonInt (s : String)
deriving DecidableEq, Repr

/-- Integer parse of a raw entry. -/
def parseTemp : RawValue → Option Int
  | .intVal n => some n
  | .nonInt _ => none

/-- Modelled from the spec: the settings record — template path, the
two-element temperature range, step (default 5), level cap (default 10). -/
structure Settings where
  templatePath : String
  minTemp : RawValue
  maxTemp : RawValue
  step : Int := 5
  levelCap : Int := 10
deriving DecidableEq, Repr

/-- The configuration error taxonomy of the spec. -/
inductive ConfigError where
  | fileNotFound
  | notAnInteger
  | invalidRange
  | tooManyLevels
deriving DecidableEq, Repr

/-- Modelled from the spec: `validate()` of gcodefollower.py's settings
store, checking in order: template path exists (else FileNotFound), both
temperatures parse as integers (else NotAnInteger), max > min (else
InvalidRange), (max - min) a multiple of step and level count at most cap
(else TooManyLevels).  The file system is modelled as the list of existing
readable paths. -/
def validateSettings (fs : List String) (s : Settings) : Option ConfigError :=
  if fs.contains s.templatePath = false then some ConfigError.fileNotFound
  else
    match parseTemp s.minTemp, parseTemp s.maxTemp with
    | some mn, some mx =>
      if mx ≤ mn then some ConfigError.invalidRange
      else if (mx - mn) % s.step ≠ 0 ∨ s.levelCap < levelCount mn mx s.step
        then some ConfigError.tooManyLevels
      else none
    | _, _ => some ConfigError.notAnInteger

/-- Separator used when deriving the output name. -/
def underscoreStr : String := "_"

/-- Separator used between the two temperatures in the output name. -/
def dashStr : String := "-"

/-- Extension of the generated output file. -/
def gcodeSuffix : String := ".gcode"

/-- Modelled from the spec: the output file name is derived
deterministically from the input name and the requested range. -/
def outputName (path : String) (mn mx : Int) : String :=
  path ++ underscoreStr ++ toString mn ++ dashStr ++ toString mx ++ gcodeSuffix

/-- Observable outcome of one generate attempt: the output file written
(if any), the error surfaced through the status callback (if any), the
final enabled state of the UI controls, and whether the rewrite pass was
started at all. -/
structure RunOutcome where
  outputWritten : Option (String × List (Nat × OutLine))
  statusText : Option ConfigError
  controlsEnabled : Bool
  passStarted : Bool
deriving DecidableEq, Repr

/-- Modelled from the spec together with
`ConfigurationFrame.generateTower` and `checkSettingsAndShow` of
src/TowerConfiguration.pyw: settings are validated first; on any
configuration error the controls are re-enabled, the error is surfaced,
and the pass never starts, so nothing is written; otherwise the rewrite
pass runs and its complete output is written under the derived name. -/
def generateTowerModel (fs : List String) (s : Settings)
    (template : List ParsedLine) : RunOutcome :=
  match validateSettings fs s with
  | some e =>
    { outputWritten := none, statusText := some e,
      controlsEnabled := true, passStarted := false }
  | none =>
    match parseTemp s.minTemp, parseTemp s.maxTemp with
    | some mn, some mx =>
      { outputWritten := some (outputName s.templatePath mn mx,
          (rewriteLines
            ((computeBands mn mx s.step s.levelCap).1.map
              TemperatureBand.temperature)
            (computeBands mn mx s.step s.levelCap).2
            initialTowerState template).1),
        statusText := none, controlsEnabled := true, passStarted := true }
    | _, _ =>
      { outputWritten := none, statusText := some ConfigError.notAnInteger,
        controlsEnabled := true, passStarted := false }

/-- A field value of the persisted settings record. -/
inductive SettingValue where
  | vStr (s : String)
  | vRaw (r : RawValue)
  | vInt (n : Int)
deriving DecidableEq, Repr

/-- Persisted key of the template path. -/
def keyTemplatePath : String := "template_gcode_path"

/-- Persisted key of the minimum temperature. -/
def keyMinTemperature : String := "min_temperature"

/-- Persisted key of the maximum temperature. -/
def keyMaxTemperature : String := "max_temperature"

/-- Persisted key of the temperature step. -/
def keyStep : String := "temperature_step"

/-- Persisted key of the level cap. -/
def keyMaxLevels : String := "max_levels"

/-- Modelled from the spec: `save()` of gcodefollower.py's settings store
— serialize every field of the settings record to the structured persisted
form.  It succeeds for every syntactically valid record, whether or not
`validate()` would pass. -/
def saveSettings (s : Settings) : List (String × SettingValue) :=
  [(keyTemplatePath, SettingValue.vStr s.templatePath),
   (keyMinTemperature, SettingValue.vRaw s.minTemp),
   (keyMaxTemperature, SettingValue.vRaw s.maxTemp),
   (keyStep, SettingValue.vInt s.step),
   (keyMaxLevels, SettingValue.vInt s.levelCap)]

/-- Modelled from the spec: `load()` of gcodefollower.py's settings store
— look every field up in the persisted record and rebuild the settings. -/
def loadSettings (rec : List (String × SettingValue)) : Option Settings :=
  match rec.lookup keyTemplatePath, rec.lookup keyMinTemperature,
      rec.lookup keyMaxTemperature, rec.lookup keyStep,
      rec.lookup keyMaxLevels with
  | some (SettingValue.vStr p), some (SettingValue.vRaw mn),
      some (SettingValue.vRaw mx), some (SettingValue.vInt st),
      some (SettingValue.vInt cap) => some ⟨p, mn, mx, st, cap⟩
  | _, _, _, _, _ => none

/-- The output area of the file system: content visible under the final
output name and content of the staging location. -/
structure OutputArea where
  finalContent : Option (List (Nat × OutLine))
  stagingContent : Option (List (Nat × OutLine))
deriving DecidableEq, Repr

/-- Modelled from the spec: the intermediate file-system states while the
pass appends its output to the staging location one line at a time (the
final name is untouched throughout). -/
def stagingTrace (a : OutputArea) (out : List (Nat × OutLine)) (k : Nat) :
    List OutputArea :=
  (List.range (k + 1)).map
    (fun i => { a with stagingContent := some (out.take i) })

/-- Modelled from the spec: one rewrite pass over the output area.  The
pass writes to the staging location; `failAfter = some k` models an I/O
failure after `k` staged lines, upon which the staged output is discarded;
on success the staged content is atomically published under the final
name.  Returns the final state and the trace of intermediate states. -/
def runStagedPass (a : OutputArea) (out : List (Nat × OutLine))
    (failAfter : Option Nat) : OutputArea × List OutputArea :=
  match failAfter with
  | some k =>
    ({ a with stagingContent := none }, stagingTrace a out (min k out.length))
  | none =>
    ({ finalContent := some out, stagingContent := none },
     stagingTrace a out out.length)

/-- From `main` of the GUI front end in src/unnamed/part_001: interpret
the positional (non "--") command-line arguments.  The template path is
taken from the first argument when exactly one or exactly three positional
arguments are present; the temperatures are the second and third arguments
when three are present, or the first and second when exactly two are. -/
def interpretSeqArgs (seqArgs : List String) :
    Option String × Option (String × String) :=
  let template :=
    if seqArgs.length = 1 ∨ seqArgs.length = 3 then seqArgs.head? else none
  let temps :=
    if seqArgs.length = 3 then
      some (seqArgs.getD 1 default, seqArgs.getD 2 default)
    else if seqArgs.length = 2 then
      some (seqArgs.getD 0 default, seqArgs.getD 1 default)
    else none
  (template, temps)

/-- The three entry fields of the configuration window: the two
temperature entries and the template-path entry. -/
structure EntryFields where
  minField : String
  maxField : String
  templateField : String
deriving DecidableEq, Repr

/-- The settings values the GUI reads: `getRangeVar("temperature", i)` for
i = 0, 1 (None when absent) and `getVar("template_gcode_path")`. -/
structure StoreView where
  rangeTemp0 : Option String
  rangeTemp1 : Option String
  templateVal : String
deriving DecidableEq, Repr

/-- From `ConfigurationFrame.pullSettings` of src/unnamed/part_001 (and
the identical method of src/TowerConfiguration.pyw): each temperature
entry is overwritten only when the stored ranged value is not None and is
left unchanged otherwise; the template-path entry is always overwritten
with the stored template path. -/
def pullSettings (g : StoreView) (f : EntryFields) : EntryFields :=
  { minField :=
      match g.rangeTemp0 with
      | some v => v
      | none => f.minField,
    maxField :=
      match g.rangeTemp1 with
      | some v => v
      | none => f.maxField,
    templateField := g.templateVal }

/-! ## Theorems -/

example : computeBands 180 200 5 10 =
    ([⟨0, 180⟩, ⟨1, 185⟩, ⟨2, 190⟩, ⟨3, 195⟩, ⟨4, 200⟩], 5) := by decide

/-- Claim C1: for every valid configuration (max > min, (max - min) an
exact multiple of step, level count at most cap), `computeBands` returns
count = (max-min)/step + 1 bands ordered ascending by index, where band i
has temperature min + i*step, band 0 has temperature min, and band
(count-1) has temperature exactly max. -/
theorem computeBands_valid_config (mn mx step cap : Int)
    (hlt : mn < mx) (hstep : 0 < step) (hdvd : step ∣ (mx - mn))
    (hcap : levelCount mn mx step ≤ cap) :
    ((computeBands mn mx step cap).2 : Int) = levelCount mn mx step
    ∧ (computeBands mn mx step cap).1.length = (computeBands mn mx step cap).2
    ∧ (∀ i (h : i < (computeBands mn mx step cap).1.length),
        ((computeBands mn mx step cap).1.get ⟨i, h⟩).index = i
        ∧ ((computeBands mn mx step cap).1.get ⟨i, h⟩).temperature
            = mn + (i : Int) * step)
    ∧ ((computeBands mn mx step cap).1.head?.map TemperatureBand.temperature
        = some mn)
    ∧ (∀ h : (computeBands mn mx step cap).2 - 1
          < (computeBands mn mx step cap).1.length,
        ((computeBands mn mx step cap).1.get
            ⟨(computeBands mn mx step cap).2 - 1, h⟩).temperature = mx) := by
  obtain ⟨q, hq⟩ := hdvd
  have hqpos : 0 < q := by nlinarith
  have hdiv : (mx - mn) / step = q := by
    rw [hq, Int.mul_ediv_cancel_left _ (by omega : step ≠ 0)]
  have hcount : (computeBands mn mx step cap).2 = q.toNat + 1 := by
    simp only [computeBands, levelCount, hdiv]
    omega
  have hlen : (computeBands mn mx step cap).1.length = q.toNat + 1 := by
    simp [computeBands, hdiv]
    omega
  refine ⟨?_, ?_, ?_, ?_, ?_⟩
  · rw [hcount]
    simp only [levelCount, hdiv]
    omega
  · rw [hlen, hcount]
  · intro i h
    constructor
    · simp [computeBands]
    · simp [computeBands]
  · have hc : ((mx - mn) / step + 1).toNat = q.toNat + 1 := by
      rw [hdiv]
      omega
    simp only [computeBands, hc, List.range_succ_eq_map, List.map_cons,
      List.head?_cons, Option.map_some]
    simp
  · intro h
    simp only [computeBands, List.get_eq_getElem, List.getElem_map,
      List.getElem_range]
    rw [hdiv]
    have hsub : ((q + 1).toNat - 1 : Nat) = q.toNat := by omega
    rw [hsub, Int.toNat_of_nonneg (by omega : (0 : Int) ≤ q), mul_comm]
    omega

/-- Witness for C1 at the configuration min=180, max=200, step=5, cap=10. -/
theorem computeBands_valid_config_witness :
    (180 : Int) < 200 ∧ (0 : Int) < 5 ∧ (5 : Int) ∣ (200 - 180)
    ∧ levelCount 180 200 5 ≤ 10
    ∧ (((computeBands 180 200 5 10).2 : Int) = levelCount 180 200 5
      ∧ (computeBands 180 200 5 10).1.length = (computeBands 180 200 5 10).2
      ∧ (∀ i (h : i < (computeBands 180 200 5 10).1.length),
          ((computeBands 180 200 5 10).1.get ⟨i, h⟩).index = i
          ∧ ((computeBands 180 200 5 10).1.get ⟨i, h⟩).temperature
              = 180 + (i : Int) * 5)
      ∧ ((computeBands 180 200 5 10).1.head?.map TemperatureBand.temperature
          = some 180)
      ∧ (∀ h : (computeBands 180 200 5 10).2 - 1
            < (computeBands 180 200 5 10).1.length,
          ((computeBands 180 200 5 10).1.get
              ⟨(computeBands 180 200 5 10).2 - 1, h⟩).temperature = 200)) :=
  ⟨by decide, by decide, by decide, by decide,
   computeBands_valid_config 180 200 5 10 (by decide) (by decide)
     (by decide) (by decide)⟩

/-- Claim C4: `HeightTracker.update` signals a height increase if and only
if the line is a Move carrying a Z parameter whose resulting tracked Z
(set outright in absolute mode, accumulated onto current Z in relative
mode, as computed by `newZOf`) is strictly greater than the previously
tracked Z.  Moves without a Z parameter, and Z values equal to or below
the tracked Z, never signal. -/
theorem heightTracker_update_signal_iff (st : TrackerState) (l : ParsedLine) :
    (HeightTracker.update st l).1 = true
    ↔ (l.kind = LineKind.move
        ∧ ∃ dz, l.zVal = some dz ∧ st.z < newZOf st dz) := by
  cases l with
  | mk kind zVal tVal =>
    cases kind <;> cases zVal <;>
      simp [HeightTracker.update]

example :
    (rewriteLines [180, 185] 2 initialTowerState
      [⟨LineKind.move, some 1, none⟩]).1
    = [(0, OutLine.copy ⟨LineKind.move, some 1, none⟩),
       (1, OutLine.syntheticTemp 185)] := by decide

example :
    (rewriteLines [180, 185] 2 initialTowerState
      [⟨LineKind.move, some 1, none⟩, ⟨LineKind.other, none, none⟩,
       ⟨LineKind.move, some 2, none⟩, ⟨LineKind.other, none, none⟩]).1
    = [(0, OutLine.copy ⟨LineKind.move, some 1, none⟩),
       (1, OutLine.syntheticTemp 185),
       (1, OutLine.copy ⟨LineKind.other, none, none⟩),
       (1, OutLine.copy ⟨LineKind.move, some 2, none⟩)] := by decide

example :
    (rewriteLines [180, 185, 190] 3 initialTowerState
      [⟨LineKind.temperatureSet, none, some 210⟩,
       ⟨LineKind.move, some 1, none⟩,
       ⟨LineKind.temperatureSet, none, some 210⟩]).1
    = [(0, OutLine.rewrittenTemp ⟨LineKind.temperatureSet, none, some 210⟩ 180),
       (0, OutLine.copy ⟨LineKind.move, some 1, none⟩),
       (1, OutLine.rewrittenTemp ⟨LineKind.temperatureSet, none, some 210⟩ 185)]
    := by decide

/-- Only Move lines can signal a height increase. -/
lemma update_true_move (st : TrackerState) (l : ParsedLine)
    (h : (HeightTracker.update st l).1 = true) : l.kind = LineKind.move := by
  cases l with
  | mk kind zVal tVal =>
    cases kind <;> cases zVal <;> simp_all [HeightTracker.update]

/-- From a truncated state the pass consumes nothing and emits nothing. -/
lemma rewriteLines_truncated (bands : List Int) (count : Nat)
    (st : TowerState) (inp : List ParsedLine) (h : st.truncated = true) :
    rewriteLines bands count st inp = ([], st) := by
  cases inp with
  | nil => rfl
  | cons l rest => simp [rewriteLines, h]

/-- Unfolding: a height-increase Move that takes the band index to the
level count truncates the pass; the triggering move is the only line
emitted for the step. -/
lemma rewriteLines_step_trunc (bands : List Int) (count : Nat)
    (st : TowerState) (l : ParsedLine) (rest : List ParsedLine)
    (ht : st.truncated = false)
    (hu : (HeightTracker.update st.tracker l).1 = true)
    (hc : st.bandIndex + 1 = count) :
    rewriteLines bands count st (l :: rest)
      = ([(st.bandIndex, OutLine.copy l)],
         ⟨(HeightTracker.update st.tracker l).2, st.bandIndex + 1, true⟩) := by
  simp [rewriteLines, ht, hu, hc]

/-- Unfolding: a height-increase Move short of the level count, with a
source TemperatureSet immediately following, emits the move and
recurses. -/
lemma rewriteLines_step_inc_src (bands : List Int) (count : Nat)
    (st : TowerState) (l : ParsedLine) (rest : List ParsedLine)
    (ht : st.truncated = false)
    (hu : (HeightTracker.update st.tracker l).1 = true)
    (hc : st.bandIndex + 1 ≠ count)
    (hn : nextIsTempSet rest = true) :
    rewriteLines bands count st (l :: rest)
      = ((st.bandIndex, OutLine.copy l)
          :: (rewriteLines bands count
              ⟨(HeightTracker.update st.tracker l).2, st.bandIndex + 1, false⟩
              rest).1,
         (rewriteLines bands count
            ⟨(HeightTracker.update st.tracker l).2, st.bandIndex + 1, false⟩
            rest).2) := by
  simp [rewriteLines, ht, hu, hc, hn]

/-- Unfolding: a height-increase Move short of the level count, with no
TemperatureSet immediately following, emits the move, a synthetic
TemperatureSet for the new band, and recurses. -/
lemma rewriteLines_step_inc_ins (bands : List Int) (count : Nat)
    (st : TowerState) (l : ParsedLine) (rest : List ParsedLine)
    (ht : st.truncated = false)
    (hu : (HeightTracker.update st.tracker l).1 = true)
    (hc : st.bandIndex + 1 ≠ count)
    (hn : nextIsTempSet rest = false) :
    rewriteLines bands count st (l :: rest)
      = ((st.bandIndex, OutLine.copy l)
          :: (st.bandIndex + 1,
              OutLine.syntheticTemp (tempOf bands (st.bandIndex + 1)))
          :: (rewriteLines bands count
              ⟨(HeightTracker.update st.tracker l).2, st.bandIndex + 1, false⟩
              rest).1,
         (rewriteLines bands count
            ⟨(HeightTracker.update st.tracker l).2, st.bandIndex + 1, false⟩
            rest).2) := by
  simp [rewriteLines, ht, hu, hc, hn]

/-- Unfolding: a line that is not a height increase is emitted in the
current band (a TemperatureSet rewritten, anything else copied) and the
pass recurses. -/
lemma rewriteLines_step_noinc (bands : List Int) (count : Nat)
    (st : TowerState) (l : ParsedLine) (rest : List ParsedLine)
    (ht : st.truncated = false)
    (hu : (HeightTracker.update st.tracker l).1 = false) :
    rewriteLines bands count st (l :: rest)
      = ((st.bandIndex,
          if l.kind = LineKind.temperatureSet then
            OutLine.rewrittenTemp l (tempOf bands st.bandIndex)
          else OutLine.copy l)
          :: (rewriteLines bands count
              ⟨(HeightTracker.update st.tracker l).2, st.bandIndex, false⟩
              rest).1,
         (rewriteLines bands count
            ⟨(HeightTracker.update st.tracker l).2, st.bandIndex, false⟩
            rest).2) := by
  by_cases hk : l.kind = LineKind.temperatureSet <;>
    simp [rewriteLines, ht, hu, hk]

/-- Every output line beyond the input length is a synthetic insertion. -/
lemma rewriteLines_length_le (bands : List Int) (count : Nat) :
    ∀ (inp : List ParsedLine) (st : TowerState),
      (rewriteLines bands count st inp).1.length
        ≤ inp.length + synthCount (rewriteLines bands count st inp).1 := by
  intro inp
  induction inp with
  | nil =>
    intro st
    simp [rewriteLines]
  | cons l rest ih =>
    intro st
    by_cases ht : st.truncated = true
    · simp [rewriteLines_truncated bands count st _ ht]
    · rw [Bool.not_eq_true] at ht
      by_cases hu : (HeightTracker.update st.tracker l).1 = true
      · by_cases hc : st.bandIndex + 1 = count
        · rw [rewriteLines_step_trunc bands count st l rest ht hu hc]
          simp only [synthCount, List.filter_cons, List.filter_nil,
            OutLine.isSynthetic, Bool.false_eq_true, if_false,
            List.length_singleton, List.length_cons, List.length_nil]
          omega
        · by_cases hn : nextIsTempSet rest = true
          · rw [rewriteLines_step_inc_src bands count st l rest ht hu hc hn]
            have := ih ⟨(HeightTracker.update st.tracker l).2,
              st.bandIndex + 1, false⟩
            simp only [synthCount, List.filter_cons, List.length_cons,
              OutLine.isSynthetic] at this ⊢
            simp only [Bool.false_eq_true, if_false]
            omega
          · rw [Bool.not_eq_true] at hn
            rw [rewriteLines_step_inc_ins bands count st l rest ht hu hc hn]
            have := ih ⟨(HeightTracker.update st.tracker l).2,
              st.bandIndex + 1, false⟩
            simp only [synthCount, List.filter_cons, List.length_cons,
              OutLine.isSynthetic] at this ⊢
            simp only [Bool.false_eq_true, if_false, if_true,
              List.length_cons]
            omega
      · rw [Bool.not_eq_true] at hu
        rw [rewriteLines_step_noinc bands count st l rest ht hu]
        have := ih ⟨(HeightTracker.update st.tracker l).2,
          st.bandIndex, false⟩
        by_cases hk : l.kind = LineKind.temperatureSet <;>
          simp only [hk, if_true, if_false, synthCount, List.filter_cons,
            List.length_cons, OutLine.isSynthetic, Bool.false_eq_true] at this ⊢ <;>
          omega

/-- Projection of a literal `TowerState`: the band index field. -/
@[simp] lemma TowerState.bandIndex_mk (tr : TrackerState) (b : Nat) (t : Bool) :
    (⟨tr, b, t⟩ : TowerState).bandIndex = b := rfl

/-- Projection of a literal `TowerState`: the tracker field. -/
@[simp] lemma TowerState.tracker_mk (tr : TrackerState) (b : Nat) (t : Bool) :
    (⟨tr, b, t⟩ : TowerState).tracker = tr := rfl

/-- The band indices that receive output lines form the contiguous range
from the starting band up to the smaller of the final band (count - 1)
and the starting band plus the number of height-increase events. -/
lemma rewriteLines_bandTags (bands : List Int) (count : Nat) :
    ∀ (inp : List ParsedLine) (st : TowerState),
      st.truncated = false → st.bandIndex < count → inp ≠ [] →
      ((rewriteLines bands count st inp).1.map Prod.fst).toFinset
        = Finset.Ico st.bandIndex
            (min (count - 1)
              (st.bandIndex + heightEvents st.tracker inp) + 1) := by
  intro inp
  induction inp with
  | nil =>
    intro st _ _ hne
    exact absurd rfl hne
  | cons l rest ih =>
    intro st ht hb _
    by_cases hu : (HeightTracker.update st.tracker l).1 = true
    · have hEv : heightEvents st.tracker (l :: rest)
          = 1 + heightEvents (HeightTracker.update st.tracker l).2 rest := by
        simp [heightEvents, hu]
      by_cases hc : st.bandIndex + 1 = count
      · rw [rewriteLines_step_trunc bands count st l rest ht hu hc, hEv]
        ext x
        simp only [List.map_cons, List.map_nil, List.toFinset_cons,
          List.toFinset_nil, Finset.mem_insert, Finset.not_mem_empty,
          or_false, Finset.mem_Ico]
        omega
      · by_cases hn : nextIsTempSet rest = true
        · have hne' : rest ≠ [] := by
            intro h
            rw [h] at hn
            simp [nextIsTempSet] at hn
          rw [rewriteLines_step_inc_src bands count st l rest ht hu hc hn,
            List.map_cons, List.toFinset_cons,
            ih ⟨(HeightTracker.update st.tracker l).2, st.bandIndex + 1, false⟩
              rfl (by simp; omega) hne', hEv]
          simp only [TowerState.bandIndex_mk, TowerState.tracker_mk]
          ext x
          simp only [Finset.mem_insert, Finset.mem_Ico]
          omega
        · rw [Bool.not_eq_true] at hn
          rw [rewriteLines_step_inc_ins bands count st l rest ht hu hc hn]
          by_cases hne' : rest = []
          · subst hne'
            rw [show rewriteLines bands count
                ⟨(HeightTracker.update st.tracker l).2, st.bandIndex + 1, false⟩
                [] = ([], ⟨(HeightTracker.update st.tracker l).2,
                  st.bandIndex + 1, false⟩) from rfl, hEv]
            ext x
            simp only [List.map_cons, List.map_nil, List.toFinset_cons,
              List.toFinset_nil, Finset.mem_insert, Finset.not_mem_empty,
              or_false, Finset.mem_Ico, heightEvents]
            omega
          · rw [List.map_cons, List.map_cons, List.toFinset_cons,
              List.toFinset_cons,
              ih ⟨(HeightTracker.update st.tracker l).2, st.bandIndex + 1,
                false⟩ rfl (by simp; omega) hne', hEv]
            simp only [TowerState.bandIndex_mk, TowerState.tracker_mk]
            ext x
            simp only [Finset.mem_insert, Finset.mem_Ico]
            omega
    · rw [Bool.not_eq_true] at hu
      have hEv : heightEvents st.tracker (l :: rest)
          = heightEvents (HeightTracker.update st.tracker l).2 rest := by
        simp [heightEvents, hu]
      rw [rewriteLines_step_noinc bands count st l rest ht hu]
      by_cases hne' : rest = []
      · subst hne'
        rw [show rewriteLines bands count
            ⟨(HeightTracker.update st.tracker l).2, st.bandIndex, false⟩
            [] = ([], ⟨(HeightTracker.update st.tracker l).2,
              st.bandIndex, false⟩) from rfl, hEv]
        ext x
        simp only [List.map_cons, List.map_nil, List.toFinset_cons,
          List.toFinset_nil, Finset.mem_insert, Finset.not_mem_empty,
          or_false, Finset.mem_Ico, heightEvents]
        omega
      · rw [List.map_cons, List.toFinset_cons,
          ih ⟨(HeightTracker.update st.tracker l).2, st.bandIndex, false⟩
            rfl (by simp; omega) hne', hEv]
        simp only [TowerState.bandIndex_mk, TowerState.tracker_mk]
        ext x
        simp only [Finset.mem_insert, Finset.mem_Ico]
        omega

/-- If the pass ends truncated, the last emitted line is the verbatim copy
of a Move line, tagged with the final band count - 1. -/
lemma rewriteLines_trunc_last (bands : List Int) (count : Nat) :
    ∀ (inp : List ParsedLine) (st : TowerState),
      st.truncated = false →
      (rewriteLines bands count st inp).2.truncated = true →
      ∃ l : ParsedLine, l.kind = LineKind.move
        ∧ (rewriteLines bands count st inp).1.getLast?
            = some (count - 1, OutLine.copy l) := by
  intro inp
  induction inp with
  | nil =>
    intro st ht htr
    rw [show rewriteLines bands count st [] = ([], st) from rfl] at htr
    rw [ht] at htr
    exact absurd htr (by simp)
  | cons l rest ih =>
    intro st ht htr
    by_cases hu : (HeightTracker.update st.tracker l).1 = true
    · by_cases hc : st.bandIndex + 1 = count
      · rw [rewriteLines_step_trunc bands count st l rest ht hu hc]
        refine ⟨l, update_true_move st.tracker l hu, ?_⟩
        have hb : st.bandIndex = count - 1 := by omega
        rw [hb]
        rfl
      · by_cases hn : nextIsTempSet rest = true
        · rw [rewriteLines_step_inc_src bands count st l rest ht hu hc hn] at htr ⊢
          obtain ⟨m, hm, hlast⟩ :=
            ih ⟨(HeightTracker.update st.tracker l).2, st.bandIndex + 1, false⟩
              rfl htr
          refine ⟨m, hm, ?_⟩
          rcases hr : (rewriteLines bands count
              ⟨(HeightTracker.update st.tracker l).2, st.bandIndex + 1, false⟩
              rest).1 with _ | ⟨y, ys⟩
          · rw [hr] at hlast
            simp at hlast
          · rw [hr] at hlast
            simp only [List.getLast?_cons_cons]
            exact hlast
        · rw [Bool.not_eq_true] at hn
          rw [rewriteLines_step_inc_ins bands count st l rest ht hu hc hn] at htr ⊢
          obtain ⟨m, hm, hlast⟩ :=
            ih ⟨(HeightTracker.update st.tracker l).2, st.bandIndex + 1, false⟩
              rfl htr
          refine ⟨m, hm, ?_⟩
          rcases hr : (rewriteLines bands count
              ⟨(HeightTracker.update st.tracker l).2, st.bandIndex + 1, false⟩
              rest).1 with _ | ⟨y, ys⟩
          · rw [hr] at hlast
            simp at hlast
          · rw [hr] at hlast
            simp only [List.getLast?_cons_cons]
            exact hlast
    · rw [Bool.not_eq_true] at hu
      rw [rewriteLines_step_noinc bands count st l rest ht hu] at htr ⊢
      obtain ⟨m, hm, hlast⟩ :=
        ih ⟨(HeightTracker.update st.tracker l).2, st.bandIndex, false⟩
          rfl htr
      refine ⟨m, hm, ?_⟩
      rcases hr : (rewriteLines bands count
          ⟨(HeightTracker.update st.tracker l).2, st.bandIndex, false⟩
          rest).1 with _ | ⟨y, ys⟩
      · rw [hr] at hlast
        simp at hlast
      · rw [hr] at hlast
        simp only [List.getLast?_cons_cons]
        exact hlast

/-- Counterexample to claim C2 as stated: on the one-line template
consisting of a single height-increase Move, with level count 2, the pass
emits two lines (the move plus the synthetic TemperatureSet inserted for
the new band), which exceeds the input line count, and the number of
emitted bands is 2, not min(level count, height-increase events) = 1. -/
theorem towerRewriter_truncation_law_counterexample :
    ¬ (((rewriteLines [180, 185] 2 initialTowerState
          [⟨LineKind.move, some 1, none⟩]).1.length
        ≤ ([⟨LineKind.move, some 1, none⟩] : List ParsedLine).length)
      ∧ emittedBands (rewriteLines [180, 185] 2 initialTowerState
            [⟨LineKind.move, some 1, none⟩]).1
          = min 2 (heightEvents initialTracker
              [⟨LineKind.move, some 1, none⟩])) := by
  decide

/-- Claim C2 (amended): the rewrite pass emits at most as many lines as
the input contains plus the synthetically inserted TemperatureSet lines;
for a nonempty template the number of emitted bands equals
min(level count, height-increase events + 1); a truncated state is
terminal (every remaining input line is dropped and nothing more is
emitted); and when the pass ends truncated, the triggering Move is the
last line emitted. -/
theorem towerRewriter_truncation_law (bands : List Int) (count : Nat)
    (template : List ParsedLine) (hcount : 1 ≤ count) :
    ((rewriteLines bands count initialTowerState template).1.length
      ≤ template.length
        + synthCount (rewriteLines bands count initialTowerState template).1)
    ∧ (template ≠ [] →
        emittedBands (rewriteLines bands count initialTowerState template).1
          = min count (heightEvents initialTracker template + 1))
    ∧ (∀ (st : TowerState) (inp : List ParsedLine), st.truncated = true →
        rewriteLines bands count st inp = ([], st))
    ∧ ((rewriteLines bands count initialTowerState template).2.truncated
          = true →
        ∃ l : ParsedLine, l.kind = LineKind.move
          ∧ (rewriteLines bands count initialTowerState template).1.getLast?
              = some (count - 1, OutLine.copy l)) := by
  refine ⟨rewriteLines_length_le bands count template initialTowerState,
    ?_,
    fun st inp h => rewriteLines_truncated bands count st inp h,
    fun h => rewriteLines_trunc_last bands count template
      initialTowerState rfl h⟩
  intro hne
  have hbt := rewriteLines_bandTags bands count template initialTowerState
    rfl (by simp [initialTowerState, initialTracker]; omega) hne
  unfold emittedBands
  rw [hbt]
  rw [Nat.card_Ico]
  simp only [initialTowerState, initialTracker]
  omega

/-- Witness for the amended C2 at a concrete template and configuration. -/
theorem towerRewriter_truncation_law_witness :
    (1 : Nat) ≤ 2
    ∧ (((rewriteLines [180, 185] 2 initialTowerState
          [⟨LineKind.move, some 1, none⟩]).1.length
        ≤ ([⟨LineKind.move, some 1, none⟩] : List ParsedLine).length
          + synthCount (rewriteLines [180, 185] 2 initialTowerState
              [⟨LineKind.move, some 1, none⟩]).1)
      ∧ (([⟨LineKind.move, some 1, none⟩] : List ParsedLine) ≠ [] →
          emittedBands (rewriteLines [180, 185] 2 initialTowerState
              [⟨LineKind.move, some 1, none⟩]).1
            = min 2 (heightEvents initialTracker
                [⟨LineKind.move, some 1, none⟩] + 1))
      ∧ (∀ (st : TowerState) (inp : List ParsedLine), st.truncated = true →
          rewriteLines [180, 185] 2 st inp = ([], st))
      ∧ ((rewriteLines [180, 185] 2 initialTowerState
            [⟨LineKind.move, some 1, none⟩]).2.truncated = true →
          ∃ l : ParsedLine, l.kind = LineKind.move
            ∧ (rewriteLines [180, 185] 2 initialTowerState
                [⟨LineKind.move, some 1, none⟩]).1.getLast?
                = some (2 - 1, OutLine.copy l))) :=
  ⟨by decide,
   towerRewriter_truncation_law [180, 185] 2
     [⟨LineKind.move, some 1, none⟩] (by decide)⟩

/-- Claim C3: when a height-increase Move takes the pass into a band below
the level count and no TemperatureSet line is present in the source
immediately after that triggering move, the rewriter emits, directly after
the copied triggering move, a synthetic TemperatureSet line carrying the
new band's scheduled temperature. -/
theorem band_start_synthetic_temperature (bands : List Int) (count : Nat)
    (st : TowerState) (l : ParsedLine) (rest : List ParsedLine)
    (ht : st.truncated = false)
    (hinc : (HeightTracker.update st.tracker l).1 = true)
    (hlt : st.bandIndex + 1 < count)
    (hnone : nextIsTempSet rest = false) :
    ∃ tail, (rewriteLines bands count st (l :: rest)).1
      = (st.bandIndex, OutLine.copy l)
        :: (st.bandIndex + 1,
            OutLine.syntheticTemp (tempOf bands (st.bandIndex + 1)))
        :: tail :=
  ⟨(rewriteLines bands count
      ⟨(HeightTracker.update st.tracker l).2, st.bandIndex + 1, false⟩
      rest).1,
   by rw [rewriteLines_step_inc_ins bands count st l rest ht hinc
        (by omega) hnone]⟩

/-- Witness for C3: a single height-increase Move with nothing following,
with bands 180/185/190. -/
theorem band_start_synthetic_temperature_witness :
    initialTowerState.truncated = false
    ∧ (HeightTracker.update initialTowerState.tracker
        ⟨LineKind.move, some 1, none⟩).1 = true
    ∧ initialTowerState.bandIndex + 1 < 3
    ∧ nextIsTempSet [] = false
    ∧ ∃ tail, (rewriteLines [180, 185, 190] 3 initialTowerState
        [⟨LineKind.move, some 1, none⟩]).1
      = (initialTowerState.bandIndex,
          OutLine.copy ⟨LineKind.move, some 1, none⟩)
        :: (initialTowerState.bandIndex + 1,
            OutLine.syntheticTemp
              (tempOf [180, 185, 190] (initialTowerState.bandIndex + 1)))
        :: tail :=
  ⟨rfl, by decide, by decide, rfl,
   band_start_synthetic_temperature [180, 185, 190] 3 initialTowerState
     ⟨LineKind.move, some 1, none⟩ [] rfl (by decide) (by decide) rfl⟩

/-- Claim C5: whenever validation fails with any configuration error, the
attempt writes no output file, never starts the pass, re-enables the UI
controls and surfaces the error through the status callback; and in
particular a configuration whose level count (max-min)/5 + 1 exceeds the
cap fails with TooManyLevels. -/
theorem configuration_error_aborts (fs : List String) (s : Settings)
    (template : List ParsedLine) (e : ConfigError)
    (h : validateSettings fs s = some e) :
    (generateTowerModel fs s template).outputWritten = none
    ∧ (generateTowerModel fs s template).passStarted = false
    ∧ (generateTowerModel fs s template).controlsEnabled = true
    ∧ (generateTowerModel fs s template).statusText = some e
    ∧ (∀ mn mx : Int, fs.contains s.templatePath = true →
        parseTemp s.minTemp = some mn → parseTemp s.maxTemp = some mx →
        mn < mx → s.step = 5 → s.levelCap < levelCount mn mx 5 →
        validateSettings fs s = some ConfigError.tooManyLevels) := by
  refine ⟨?_, ?_, ?_, ?_, ?_⟩
  · simp [generateTowerModel, h]
  · simp [generateTowerModel, h]
  · simp [generateTowerModel, h]
  · simp [generateTowerModel, h]
  · intro mn mx hcont hmn hmx hlt hstep hcap
    rw [validateSettings, hcont, hmn, hmx]
    simp only [Bool.true_eq_false, if_false]
    rw [if_neg (by omega), if_pos]
    right
    rw [hstep]
    exact hcap

/-- Witness for C5: a range of 180-230 with step 5 exceeds the cap of 10
levels, so validation fails with TooManyLevels and nothing is written. -/
theorem configuration_error_aborts_witness :
    validateSettings [String.mk [Char.ofNat 116]]
      ⟨String.mk [Char.ofNat 116], RawValue.intVal 180,
        RawValue.intVal 230, 5, 10⟩
      = some ConfigError.tooManyLevels
    ∧ ((generateTowerModel [String.mk [Char.ofNat 116]]
        ⟨String.mk [Char.ofNat 116], RawValue.intVal 180,
          RawValue.intVal 230, 5, 10⟩ []).outputWritten = none
      ∧ (generateTowerModel [String.mk [Char.ofNat 116]]
          ⟨String.mk [Char.ofNat 116], RawValue.intVal 180,
            RawValue.intVal 230, 5, 10⟩ []).passStarted = false
      ∧ (generateTowerModel [String.mk [Char.ofNat 116]]
          ⟨String.mk [Char.ofNat 116], RawValue.intVal 180,
            RawValue.intVal 230, 5, 10⟩ []).controlsEnabled = true
      ∧ (generateTowerModel [String.mk [Char.ofNat 116]]
          ⟨String.mk [Char.ofNat 116], RawValue.intVal 180,
            RawValue.intVal 230, 5, 10⟩ []).statusText
          = some ConfigError.tooManyLevels
      ∧ (∀ mn mx : Int,
          ([String.mk [Char.ofNat 116]] : List String).contains
            (String.mk [Char.ofNat 116]) = true →
          parseTemp (RawValue.intVal 180) = some mn →
          parseTemp (RawValue.intVal 230) = some mx →
          mn < mx → (5 : Int) = 5 → (10 : Int) < levelCount mn mx 5 →
          validateSettings [String.mk [Char.ofNat 116]]
            ⟨String.mk [Char.ofNat 116], RawValue.intVal 180,
              RawValue.intVal 230, 5, 10⟩
            = some ConfigError.tooManyLevels)) :=
  ⟨by decide,
   configuration_error_aborts [String.mk [Char.ofNat 116]]
     ⟨String.mk [Char.ofNat 116], RawValue.intVal 180,
       RawValue.intVal 230, 5, 10⟩ [] ConfigError.tooManyLevels (by decide)⟩

/-- Claim C6: for every syntactically valid settings record — the theorem
carries no validity hypothesis whatsoever, so records failing `validate()`
are included — saving and then loading returns the record unchanged. -/
theorem settings_save_load_roundtrip (s : Settings) :
    loadSettings (saveSettings s) = some s := by
  cases s
  rfl

/-- Claim C7: output is staged and published atomically — while the pass
runs, the content under the final name never changes; if the pass fails
mid-way the staged output is discarded and the final name still holds
exactly what it held before (never a partial file); only on success does
the final name receive the complete output. -/
theorem staged_publication_atomic (a : OutputArea)
    (out : List (Nat × OutLine)) (failAfter : Option Nat) :
    (∀ st ∈ (runStagedPass a out failAfter).2,
      st.finalContent = a.finalContent)
    ∧ (∀ k, failAfter = some k →
        (runStagedPass a out failAfter).1.finalContent = a.finalContent
        ∧ (runStagedPass a out failAfter).1.stagingContent = none)
    ∧ (failAfter = none →
        (runStagedPass a out failAfter).1.finalContent = some out) := by
  refine ⟨?_, ?_, ?_⟩
  · intro st hst
    cases failAfter <;>
      simp only [runStagedPass, stagingTrace, List.mem_map,
        List.mem_range] at hst <;>
      obtain ⟨i, _, hi⟩ := hst <;>
      rw [← hi]
  · intro k hk
    subst hk
    exact ⟨rfl, rfl⟩
  · intro hk
    subst hk
    rfl

/-- Witness for C7: a one-line output; failure after the first staged line
leaves the final name unchanged, success publishes the whole output. -/
theorem staged_publication_atomic_witness :
    ((runStagedPass ⟨none, none⟩ [(0, OutLine.syntheticTemp 180)]
        (some 1)).1.finalContent = (⟨none, none⟩ : OutputArea).finalContent
      ∧ (runStagedPass ⟨none, none⟩ [(0, OutLine.syntheticTemp 180)]
          (some 1)).1.stagingContent = none)
    ∧ (runStagedPass ⟨none, none⟩ [(0, OutLine.syntheticTemp 180)]
        none).1.finalContent = some [(0, OutLine.syntheticTemp 180)] :=
  ⟨(staged_publication_atomic ⟨none, none⟩ [(0, OutLine.syntheticTemp 180)]
      (some 1)).2.1 1 rfl,
   (staged_publication_atomic ⟨none, none⟩ [(0, OutLine.syntheticTemp 180)]
      none).2.2 rfl⟩

/-- Claim C8: the rewrite pass is a deterministic function of its inputs.
In this embedding the whole pipeline is a pure function — per the spec the
`TowerState` is created fresh for each invocation (both runs start from
`initialTowerState`), no other state exists, so two invocations on the
same settings and the same template yield identical outcomes, including
byte-identical output content. -/
theorem rewrite_pass_deterministic (fs : List String) (s : Settings)
    (template : List ParsedLine) (bands : List Int) (count : Nat) :
    generateTowerModel fs s template = generateTowerModel fs s template
    ∧ rewriteLines bands count initialTowerState template
        = rewriteLines bands count initialTowerState template :=
  ⟨rfl, rfl⟩

/-- Claim C9: with exactly two positional arguments both are taken as the
temperatures and the template path stays unset; with exactly one, the
single argument is the template path and the temperatures stay unset; with
exactly three, the first is the template path and the remaining two the
temperatures. -/
theorem commandline_positional_interpretation (a b c : String) :
    interpretSeqArgs [a, b] = (none, some (a, b))
    ∧ interpretSeqArgs [a] = (some a, none)
    ∧ interpretSeqArgs [a, b, c] = (some a, some (b, c)) :=
  ⟨rfl, rfl, rfl⟩

/-- Claim C10: `pullSettings` overwrites a temperature entry exactly when
the stored ranged value is present, keeps the previous contents otherwise,
and always overwrites the template-path entry with the stored value. -/
theorem pullSettings_effect (g : StoreView) (f : EntryFields) :
    (g.rangeTemp0 = none → (pullSettings g f).minField = f.minField)
    ∧ (∀ v, g.rangeTemp0 = some v → (pullSettings g f).minField = v)
    ∧ (g.rangeTemp1 = none → (pullSettings g f).maxField = f.maxField)
    ∧ (∀ v, g.rangeTemp1 = some v → (pullSettings g f).maxField = v)
    ∧ (pullSettings g f).templateField = g.templateVal := by
  refine ⟨?_, ?_, ?_, ?_, rfl⟩
  · intro h
    simp [pullSettings, h]
  · intro v h
    simp [pullSettings, h]
  · intro h
    simp [pullSettings, h]
  · intro v h
    simp [pullSettings, h]

/-- Witness for C10: the first ranged value absent, the second present —
the first entry keeps its text, the second is overwritten, the template
entry always follows the store. -/
theorem pullSettings_effect_witness :
    (pullSettings ⟨none, some (String.mk [Char.ofNat 50]),
        String.mk [Char.ofNat 112]⟩
      ⟨String.mk [Char.ofNat 97], String.mk [Char.ofNat 98],
        String.mk [Char.ofNat 99]⟩).minField = String.mk [Char.ofNat 97]
    ∧ (pullSettings ⟨none, some (String.mk [Char.ofNat 50]),
          String.mk [Char.ofNat 112]⟩
        ⟨String.mk [Char.ofNat 97], String.mk [Char.ofNat 98],
          String.mk [Char.ofNat 99]⟩).maxField = String.mk [Char.ofNat 50]
    ∧ (pullSettings ⟨none, some (String.mk [Char.ofNat 50]),
          String.mk [Char.ofNat 112]⟩
        ⟨String.mk [Char.ofNat 97], String.mk [Char.ofNat 98],
          String.mk [Char.ofNat 99]⟩).templateField
        = String.mk [Char.ofNat 112] :=
  ⟨(pullSettings_effect ⟨none, some (String.mk [Char.ofNat 50]),
      String.mk [Char.ofNat 112]⟩
    ⟨String.mk [Char.ofNat 97], String.mk [Char.ofNat 98],
      String.mk [Char.ofNat 99]⟩).1 rfl,
   (pullSettings_effect ⟨none, some (String.mk [Char.ofNat 50]),
      String.mk [Char.ofNat 112]⟩
    ⟨String.mk [Char.ofNat 97], String.mk [Char.ofNat 98],
      String.mk [Char.ofNat 99]⟩).2.2.2.1 (String.mk [Char.ofNat 50]) rfl,
   (pullSettings_effect ⟨none, some (String.mk [Char.ofNat 50]),
      String.mk [Char.ofNat 112]⟩
    ⟨String.mk [Char.ofNat 97], String.mk [Char.ofNat 98],
      String.mk [Char.ofNat 99]⟩).2.2.2.2⟩
